import Mathlib

/-!
Shallow embedding of `src/main.py` (SampleTrack/Auto-Poster), a Telegram bot
that posts a generated quote/image to one configured channel on a daily
schedule, with operator commands `/start`, `/post_now`, `/log`,
`/set_time HH:MM`, `/stop` and a review button that shares a previewed post.

Modelling conventions:
- The job queue (`python-telegram-bot`'s `JobQueue`) is a list of named jobs;
  `get_jobs_by_name`, `schedule_removal` and `run_daily` become list
  operations.
- Python `int(...)` and `str.split(':')` are modelled character by character
  (`pyInt`, `pySplitInts`), including whitespace stripping and an optional
  sign; exotic `int()` inputs (underscores, non-ASCII digits) are out of
  scope.
- `pytz.timezone` is an external lookup, passed in as a function
  `String → Option String` (`none` models `UnknownTimeZoneError`); the
  returned timezone object is represented by its name.
- Exceptions are `Except`/`Option`; a Python `try/except` becomes a match on
  the outcome of the call that can raise. Network calls (`requests.get`,
  `bot.send_photo`) are parameters giving their outcome.
-/

/-- Splits a character list at `':'`, modelling Python `time_str.split(':')`. -/
def splitColonAux : List Char → List Char → List (List Char)
  | [], acc => [acc.reverse]
  | c :: rest, acc =>
    if c = ':' then acc.reverse :: splitColonAux rest []
    else splitColonAux rest (c :: acc)

def splitColon (cs : List Char) : List (List Char) :=
  splitColonAux cs []

def pyDigitsAux : List Char → Nat → Option Nat
  | [], acc => some acc
  | c :: rest, acc =>
    if '0' ≤ c ∧ c ≤ '9' then pyDigitsAux rest (acc * 10 + (c.toNat - '0'.toNat))
    else none

/-- Digit-string value; `none` on the empty string or any non-digit. -/
def pyDigits : List Char → Option Nat
  | [] => none
  | cs => pyDigitsAux cs 0

/-- Strips leading/trailing whitespace, as Python `int()` does before parsing. -/
def pyStrip (cs : List Char) : List Char :=
  ((cs.dropWhile Char.isWhitespace).reverse.dropWhile Char.isWhitespace).reverse

/-- Models Python `int(s)` for `str` input: optional sign, decimal digits,
surrounding whitespace allowed; `none` models the `ValueError` path. -/
def pyInt (s : String) : Option Int :=
  match pyStrip s.toList with
  | '-' :: rest => (pyDigits rest).map (fun n => -(n : Int))
  | '+' :: rest => (pyDigits rest).map (fun n => (n : Int))
  | cs => (pyDigits cs).map (fun n => (n : Int))

/-- Models `h, m = map(int, time_str.split(':'))`: succeeds exactly when the
split yields two fields and both parse as ints; otherwise the `ValueError`
is caught by the surrounding `try`. -/
def pySplitInts (s : String) : Option (Int × Int) :=
  match (splitColon s.toList).map (fun p => pyInt (String.mk p)) with
  | [some a, some b] => some (a, b)
  | _ => none

/-- `AD_TEXT` constant from the source. -/
def AD_TEXT : String := "📚 Read this book (40% Off)"

/-- `AD_LINK` constant from the source. -/
def AD_LINK : String := "https://amzn.to/your-link"

/-- Trigger of a queued job. `run_daily` jobs carry the time of day and the
timezone object attached to the `datetime.time`; `repeatingEvery` models the
spec's `RepeatingEvery(interval, first-fire-offset)` (used by `set_freq`,
which is absent from `src/main.py`). -/
inductive Trigger where
  | dailyAt (hour minute : Int) (tz : String)
  | repeatingEvery (intervalSeconds : ℚ) (firstOffsetSeconds : ℚ)
deriving DecidableEq, Repr

/-- A job in the `JobQueue`: registered name, trigger, and target chat. -/
structure Job where
  name : String
  trigger : Trigger
  chatId : String
deriving DecidableEq, Repr

/-- `context.job_queue.get_jobs_by_name(n)`. -/
def get_jobs_by_name (q : List Job) (n : String) : List Job :=
  q.filter (fun j => j.name == n)

/-- The effect of `for job in get_jobs_by_name(n): job.schedule_removal()`:
every job registered under name `n` leaves the queue. -/
def removeJobsNamed (q : List Job) (n : String) : List Job :=
  q.filter (fun j => !(j.name == n))

/-- `job_queue.run_daily(automated_post, time=t, chat_id=cid, name=n)`:
inserts one new job. -/
def run_daily (q : List Job) (t : Trigger) (chatId n : String) : List Job :=
  q ++ [⟨n, t, chatId⟩]

/-- Number of queued jobs registered under name `n`. -/
def countNamed (q : List Job) (n : String) : Nat :=
  (get_jobs_by_name q n).length

/-- Range check performed by `datetime.time(hour=h, minute=m, ...)`, which
raises `ValueError` outside 0–23 / 0–59. -/
def validTimeOfDay (h m : Int) : Bool :=
  decide (0 ≤ h ∧ h ≤ 23 ∧ 0 ≤ m ∧ m ≤ 59)

/-- The operator-visible outcome of a handler (`reply_text` / `send_message`
content, abstracted to which branch produced it). -/
inductive Reply where
  | usage
  | scheduleSet (timeStr : String)
  | invalidFormat
  | scheduleStopped
  | posted
  | shareError
  | answerOnly
  | freqSet (intervalSeconds : ℚ)
  | invalidArgument
deriving DecidableEq, Repr

/-- `set_daily_time(update, context)` from the source. `args` is
`context.args`; the `try` body parses the first argument, looks up the
configured timezone, builds the `datetime.time` (range check), and only then
clears old jobs and calls `run_daily`; any exception before that point
leaves the queue untouched and replies "Invalid format". -/
def set_daily_time (pytz : String → Option String) (TIMEZONE_STR CHANNEL_ID : String)
    (args : List String) (q : List Job) : List Job × Reply :=
  match args with
  | [] => (q, Reply.usage)
  | time_str :: _ =>
    match pySplitInts time_str with
    | none => (q, Reply.invalidFormat)
    | some (h, m) =>
      match pytz TIMEZONE_STR with
      | none => (q, Reply.invalidFormat)
      | some tz =>
        if validTimeOfDay h m then
          (run_daily (removeJobsNamed q CHANNEL_ID) (Trigger.dailyAt h m tz) CHANNEL_ID CHANNEL_ID,
            Reply.scheduleSet time_str)
        else (q, Reply.invalidFormat)

/-- `stop_schedule(update, context)` from the source: removes every job
named after the channel, then replies "Schedule stopped." -/
def stop_schedule (CHANNEL_ID : String) (q : List Job) : List Job × Reply :=
  (removeJobsNamed q CHANNEL_ID, Reply.scheduleStopped)

/-- An operator scheduling command targeting the configured destination. -/
inductive Cmd where
  | setTime (args : List String)
  | stop
deriving DecidableEq, Repr

/-- Queue effect of one command (the reply is discarded). -/
def runCmd (pytz : String → Option String) (TIMEZONE_STR CHANNEL_ID : String)
    (q : List Job) : Cmd → List Job
  | Cmd.setTime args => (set_daily_time pytz TIMEZONE_STR CHANNEL_ID args q).1
  | Cmd.stop => (stop_schedule CHANNEL_ID q).1

/-- Queue effect of a sequence of commands, applied in order. -/
def runCmds (pytz : String → Option String) (TIMEZONE_STR CHANNEL_ID : String)
    (cmds : List Cmd) (q : List Job) : List Job :=
  cmds.foldl (runCmd pytz TIMEZONE_STR CHANNEL_ID) q

/-- The image-URL/caption pair produced by `get_quote_and_image`. -/
structure Content where
  imageUrl : String
  caption : String
deriving DecidableEq, Repr

/-- The prompt f-string: `"epic cinematic scenery, motivational,
hyperrealistic, 8k, " + quote[:20]`. -/
def mkPrompt (quote : String) : String :=
  "epic cinematic scenery, motivational, hyperrealistic, 8k, " ++ quote.take 20

/-- The pollinations image URL built from the prompt. -/
def mkImageUrl (quote : String) : String :=
  "https://image.pollinations.ai/prompt/" ++ mkPrompt quote ++ "?nologo=true"

/-- The caption f-string from the source, with the affiliate line. -/
def mkCaption (quote author : String) : String :=
  "❝ " ++ quote ++ " ❞\n\n~ *" ++ author ++ "*\n\n👇 **Start Your Journey:**\n[" ++
    AD_TEXT ++ "](" ++ AD_LINK ++ ")"

/-- One line written through `logging`. -/
inductive LogEntry where
  | info (msg : String)
  | err (msg : String)
deriving DecidableEq, Repr

/-- `get_quote_and_image()`: the whole body sits in a `try` whose outcome is
`fetch` (the quote request / JSON access chain yielding `(quote, author)`);
on success it returns the URL and caption, on any exception it logs and
returns `(None, None)`. -/
def get_quote_and_image (fetch : Except String (String × String)) :
    Option Content × List LogEntry :=
  match fetch with
  | Except.ok (quote, author) => (some ⟨mkImageUrl quote, mkCaption quote author⟩, [])
  | Except.error e => (none, [LogEntry.err ("Error generating content: " ++ e)])

/-- `automated_post(context)`, the job callback: fetch content; if a URL came
back, `send_photo` inside its own `try/except`; every failure is logged and
the function returns normally (`Except.ok` carries the log written). -/
def automated_post (fetch : Except String (String × String))
    (send : Content → Except String Unit) : Except String (List LogEntry) :=
  let fetched := get_quote_and_image fetch
  let log₀ := LogEntry.info "⏰ Scheduler Triggered. Generating content..." :: fetched.2
  match fetched.1 with
  | some c =>
    match send c with
    | Except.ok _ => Except.ok (log₀ ++ [LogEntry.info "✅ Automated post sent to channel."])
    | Except.error e => Except.ok (log₀ ++ [LogEntry.err ("Failed to send automated post: " ++ e)])
  | none => Except.ok (log₀ ++ [LogEntry.err "Failed to generate content for automated post."])

/-- One fire of the scheduled job: the callback receives only the bot
context — it never touches the job queue — so the queue is returned
unchanged alongside the callback's outcome. -/
def fireDailyJob (q : List Job) (fetch : Except String (String × String))
    (send : Content → Except String Unit) : List Job × Except String (List LogEntry) :=
  (q, automated_post fetch send)

/-- The callback query and the message carrying the approval button, as seen
by `button_handler`: `query.data`, `message.photo` (list of file ids),
`message.caption_markdown`, and whether the inline keyboard is still
attached. -/
structure CallbackMsg where
  data : String
  photoIds : List String
  captionMd : String
  hasMarkup : Bool
deriving DecidableEq, Repr

/-- `button_handler(update, context)`: on `query.data == "share_post"` the
`try` body runs in source order — take the last photo file id
(`message.photo[-1]`, an `IndexError` if there is no photo), `send_photo` to
the channel (the publish, whose network outcome is `sendOk`), then
`edit_message_reply_markup(reply_markup=None)`. When the message still
carries the inline keyboard the edit succeeds and the success message is
sent; when the keyboard is already gone (a repeat approval) Telegram raises
"Bad Request: message is not modified", the `except` replies the share
error — but the publish has already happened. `publishedCount` counts
`send_photo` calls to the channel for this artifact; nothing in the handler
reads any pending/published state. -/
def button_handler (sendOk : Bool) (msg : CallbackMsg) (publishedCount : Nat) :
    Nat × Bool × Reply :=
  if msg.data == "share_post" then
    match msg.photoIds.getLast? with
    | none => (publishedCount, msg.hasMarkup, Reply.shareError)
    | some _fid =>
      if sendOk then
        if msg.hasMarkup then (publishedCount + 1, false, Reply.posted)
        else (publishedCount + 1, msg.hasMarkup, Reply.shareError)
      else (publishedCount, msg.hasMarkup, Reply.shareError)
  else (publishedCount, msg.hasMarkup, Reply.answerOnly)

/-- Modelled from the spec: no `set_freq` command exists in `src/main.py`
(§4.4 describes it for other variants of this repository). `setFrequency
(count)` is valid for integer `count` in [1, 24]; it computes `interval =
86400 / count` seconds and replaces any existing schedule for the
destination with a `RepeatingEvery(interval, first-fire-offset=10s)` job;
out-of-range or non-numeric input fails with `InvalidArgument` and leaves
the schedule unchanged. -/
def setFrequency (CHANNEL_ID : String) (arg : String) (q : List Job) : List Job × Reply :=
  match pyInt arg with
  | none => (q, Reply.invalidArgument)
  | some n =>
    if 1 ≤ n ∧ n ≤ 24 then
      (removeJobsNamed q CHANNEL_ID ++
        [⟨CHANNEL_ID, Trigger.repeatingEvery ((86400 : ℚ) / (n : ℚ)) 10, CHANNEL_ID⟩],
        Reply.freqSet ((86400 : ℚ) / (n : ℚ)))
    else (q, Reply.invalidArgument)

/-- Python truthiness test `not x` for an optional environment string:
true when the variable is unset or empty. -/
def pyFalsy : Option String → Bool
  | none => true
  | some s => s.toList.isEmpty

/-- Observable outcome of the `if __name__ == '__main__'` block. -/
structure StartupResult where
  criticalError : Bool
  handlers : List String
  jobs : List Job
  polling : Bool
  scheduleWarning : Bool
deriving DecidableEq, Repr

/-- The five `add_handler` groups registered in the main block. -/
def handlersRegistered : List String :=
  ["start", "help", "post_now", "log", "set_time", "stop", "button_handler"]

/-- The `__main__` block: if `TOKEN` or `CHANNEL_ID` is falsy it prints the
critical error and does nothing else; otherwise it registers the handlers,
tries to arm the default daily schedule from `POST_TIME`/`TIMEZONE` (a bare
`except` turns any failure there into a warning and no job), and starts
polling. -/
def mainStartup (pytz : String → Option String) (TOKEN CHANNEL_ID : Option String)
    (DEFAULT_TIME TIMEZONE_STR : String) : StartupResult :=
  if pyFalsy TOKEN || pyFalsy CHANNEL_ID then
    ⟨true, [], [], false, false⟩
  else
    let chan := CHANNEL_ID.getD ""
    let defaultSchedule : List Job × Bool :=
      match pySplitInts DEFAULT_TIME with
      | none => ([], true)
      | some (h, m) =>
        match pytz TIMEZONE_STR with
        | none => ([], true)
        | some tz =>
          if validTimeOfDay h m then
            (run_daily [] (Trigger.dailyAt h m tz) chan chan, false)
          else ([], true)
    ⟨false, handlersRegistered, defaultSchedule.1, true, defaultSchedule.2⟩

/-- Fixed timezone lookup used by the concrete witnesses: knows exactly the
zone name "Asia/Kolkata" (the source's default `TIMEZONE`). -/
def pytzFixture : String → Option String :=
  fun z => if z == "Asia/Kolkata" then some z else none

lemma get_jobs_by_name_append (q r : List Job) (n : String) :
    get_jobs_by_name (q ++ r) n = get_jobs_by_name q n ++ get_jobs_by_name r n := by
  simp [get_jobs_by_name, List.filter_append]

lemma get_jobs_by_name_removeJobsNamed (q : List Job) (n : String) :
    get_jobs_by_name (removeJobsNamed q n) n = [] := by
  unfold get_jobs_by_name removeJobsNamed
  induction q with
  | nil => rfl
  | cons j t ih => cases h : (j.name == n) <;> simp [List.filter_cons, h, ih]

lemma get_jobs_by_name_singleton_self (t : Trigger) (c n : String) :
    get_jobs_by_name [⟨n, t, c⟩] n = [⟨n, t, c⟩] := by
  simp [get_jobs_by_name]

lemma set_daily_time_success (pytz : String → Option String)
    (TIMEZONE_STR CHANNEL_ID s tz : String) (h m : Int) (rest : List String) (q : List Job)
    (hp : pySplitInts s = some (h, m)) (hpz : pytz TIMEZONE_STR = some tz)
    (hv : validTimeOfDay h m = true) :
    set_daily_time pytz TIMEZONE_STR CHANNEL_ID (s :: rest) q =
      (removeJobsNamed q CHANNEL_ID ++ [⟨CHANNEL_ID, Trigger.dailyAt h m tz, CHANNEL_ID⟩],
        Reply.scheduleSet s) := by
  simp [set_daily_time, hp, hpz, hv, run_daily]

lemma countNamed_set_daily_time_le (pytz : String → Option String)
    (TIMEZONE_STR CHANNEL_ID : String) (args : List String) (q : List Job)
    (h : countNamed q CHANNEL_ID ≤ 1) :
    countNamed (set_daily_time pytz TIMEZONE_STR CHANNEL_ID args q).1 CHANNEL_ID ≤ 1 := by
  cases args with
  | nil => simpa [set_daily_time]
  | cons s rest =>
    cases hps : pySplitInts s with
    | none => simpa [set_daily_time, hps]
    | some pr =>
      obtain ⟨hh, mm⟩ := pr
      cases hpz : pytz TIMEZONE_STR with
      | none => simpa [set_daily_time, hps, hpz]
      | some tz =>
        cases hv : validTimeOfDay hh mm with
        | false => simpa [set_daily_time, hps, hpz, hv]
        | true =>
          rw [set_daily_time_success pytz TIMEZONE_STR CHANNEL_ID s tz hh mm rest q hps hpz hv]
          simp [countNamed, get_jobs_by_name_append, get_jobs_by_name_removeJobsNamed,
            get_jobs_by_name_singleton_self]

lemma countNamed_stop_schedule (CHANNEL_ID : String) (q : List Job) :
    countNamed (stop_schedule CHANNEL_ID q).1 CHANNEL_ID = 0 := by
  simp [stop_schedule, countNamed, get_jobs_by_name_removeJobsNamed]

/-- C1: for every sequence of `/set_time` and `/stop` commands targeting the
configured destination, at most one job named for that destination is in the
queue at any instant (arming removes every job with that name before the new
one is inserted), provided the starting queue already satisfies the bound. -/
theorem C1_at_most_one_job_per_destination (pytz : String → Option String)
    (TIMEZONE_STR CHANNEL_ID : String) (cmds : List Cmd) (q : List Job)
    (h : countNamed q CHANNEL_ID ≤ 1) :
    countNamed (runCmds pytz TIMEZONE_STR CHANNEL_ID cmds q) CHANNEL_ID ≤ 1 := by
  induction cmds generalizing q with
  | nil => simpa [runCmds]
  | cons c rest ih =>
    have hstep : countNamed (runCmd pytz TIMEZONE_STR CHANNEL_ID q c) CHANNEL_ID ≤ 1 := by
      cases c with
      | setTime args => exact countNamed_set_daily_time_le pytz TIMEZONE_STR CHANNEL_ID args q h
      | stop => simp [runCmd, countNamed_stop_schedule]
    simpa [runCmds, List.foldl_cons] using ih _ hstep

theorem C1_witness :
    countNamed [] "-100123" ≤ 1
    ∧ countNamed (runCmds pytzFixture "Asia/Kolkata" "-100123"
        [Cmd.setTime ["09:00"], Cmd.setTime ["21:15"], Cmd.stop, Cmd.setTime ["07:45"]] [])
        "-100123" ≤ 1 :=
  ⟨by decide,
    C1_at_most_one_job_per_destination pytzFixture "Asia/Kolkata" "-100123"
      [Cmd.setTime ["09:00"], Cmd.setTime ["21:15"], Cmd.stop, Cmd.setTime ["07:45"]] []
      (by decide)⟩

/-- C2: for every argument parsing as a valid `HH:MM` and a configured
timezone known to `pytz`, a successful `/set_time` leaves exactly one job
registered for the destination, and its trigger is daily-at `h:m` carrying
the configured timezone (not any other offset). -/
theorem C2_set_time_arms_one_job_in_configured_timezone (pytz : String → Option String)
    (TIMEZONE_STR CHANNEL_ID s tz : String) (h m : Int) (q : List Job)
    (hpz : pytz TIMEZONE_STR = some tz) (hp : pySplitInts s = some (h, m))
    (hv : validTimeOfDay h m = true) :
    get_jobs_by_name (set_daily_time pytz TIMEZONE_STR CHANNEL_ID [s] q).1 CHANNEL_ID
      = [⟨CHANNEL_ID, Trigger.dailyAt h m tz, CHANNEL_ID⟩]
    ∧ (set_daily_time pytz TIMEZONE_STR CHANNEL_ID [s] q).2 = Reply.scheduleSet s := by
  rw [set_daily_time_success pytz TIMEZONE_STR CHANNEL_ID s tz h m [] q hp hpz hv]
  exact ⟨by simp [get_jobs_by_name_append, get_jobs_by_name_removeJobsNamed,
    get_jobs_by_name_singleton_self], rfl⟩

theorem C2_witness :
    pytzFixture "Asia/Kolkata" = some "Asia/Kolkata"
    ∧ pySplitInts "09:30" = some (9, 30)
    ∧ validTimeOfDay 9 30 = true
    ∧ (get_jobs_by_name
          (set_daily_time pytzFixture "Asia/Kolkata" "-100123" ["09:30"]
            [⟨"-100123", Trigger.dailyAt 7 0 "Asia/Kolkata", "-100123"⟩]).1 "-100123"
        = [⟨"-100123", Trigger.dailyAt 9 30 "Asia/Kolkata", "-100123"⟩]
      ∧ (set_daily_time pytzFixture "Asia/Kolkata" "-100123" ["09:30"]
          [⟨"-100123", Trigger.dailyAt 7 0 "Asia/Kolkata", "-100123"⟩]).2
        = Reply.scheduleSet "09:30") :=
  ⟨by decide, by decide, by decide,
    C2_set_time_arms_one_job_in_configured_timezone pytzFixture "Asia/Kolkata" "-100123"
      "09:30" "Asia/Kolkata" 9 30 [⟨"-100123", Trigger.dailyAt 7 0 "Asia/Kolkata", "-100123"⟩]
      (by decide) (by decide) (by decide)⟩

/-- C3 counterexample: starting from a fresh preview artifact (0 publish
calls, keyboard attached), a first `share_post` approval publishes once and
succeeds; a second approval callback on the same artifact (the keyboard is
already gone from the message, but the callback still carries `share_post`)
publishes a second time — only then does the markup edit fail and the share
error get replied. So the claim "every subsequent approval attempt fails
with AlreadyPublished and performs no second publish call" is false of
`button_handler`: the second publish call does happen. -/
theorem C3_counterexample :
    (button_handler true ⟨"share_post", ["fileA"], "cap", true⟩ 0).1 = 1
    ∧ (button_handler true ⟨"share_post", ["fileA"], "cap", true⟩ 0).2.2 = Reply.posted
    ∧ (button_handler true ⟨"share_post", ["fileA"], "cap", false⟩
        (button_handler true ⟨"share_post", ["fileA"], "cap", true⟩ 0).1).1 = 2
    ∧ (button_handler true ⟨"share_post", ["fileA"], "cap", false⟩
        (button_handler true ⟨"share_post", ["fileA"], "cap", true⟩ 0).1).2.2
      = Reply.shareError := by
  decide

/-- C3 amended: the first approval publishes the image and caption exactly
once, removes the approval control, and reports success; but the handler
keeps no pending/published state, so a subsequent approval callback on the
same artifact performs one more publish call before the markup edit fails on
the already-removed keyboard — the operator then gets the generic share
error, not an `AlreadyPublished` failure, and the duplicate publish is not
prevented. -/
theorem C3_share_publishes_each_time (msg : CallbackMsg) (n : Nat) (fid : String)
    (hd : msg.data = "share_post") (hp : msg.photoIds.getLast? = some fid) :
    button_handler true msg n =
      (n + 1, false, if msg.hasMarkup then Reply.posted else Reply.shareError) := by
  cases hm : msg.hasMarkup <;> simp [button_handler, hd, hp, hm]

theorem C3_share_publishes_each_time_witness :
    (⟨"share_post", ["fileA"], "cap", true⟩ : CallbackMsg).data = "share_post"
    ∧ (⟨"share_post", ["fileA"], "cap", true⟩ : CallbackMsg).photoIds.getLast? = some "fileA"
    ∧ (⟨"share_post", ["fileA"], "cap", false⟩ : CallbackMsg).data = "share_post"
    ∧ (⟨"share_post", ["fileA"], "cap", false⟩ : CallbackMsg).photoIds.getLast? = some "fileA"
    ∧ button_handler true ⟨"share_post", ["fileA"], "cap", true⟩ 0 = (1, false, Reply.posted)
    ∧ button_handler true ⟨"share_post", ["fileA"], "cap", false⟩ 1
      = (2, false, Reply.shareError) :=
  ⟨by decide, by decide, by decide, by decide,
    by simpa using
      C3_share_publishes_each_time ⟨"share_post", ["fileA"], "cap", true⟩ 0 "fileA"
        (by decide) (by decide),
    by simpa using
      C3_share_publishes_each_time ⟨"share_post", ["fileA"], "cap", false⟩ 1 "fileA"
        (by decide) (by decide)⟩

/-- C4: `setFrequency` accepts exactly the integer inputs 1–24; on those it
replaces the destination's schedule with a repeating job of interval
`86400 / count` seconds (so count 4 gives 21600 s); out-of-range or
non-numeric input fails with `InvalidArgument` and leaves the queue
unchanged. (`set_freq` is absent from `src/main.py`; `setFrequency` is
modelled from the spec, §4.4.) -/
theorem C4_set_freq_interval_and_validation (CHANNEL_ID arg : String) (q : List Job) :
    (∀ n : Int, pyInt arg = some n → 1 ≤ n → n ≤ 24 →
      setFrequency CHANNEL_ID arg q =
        (removeJobsNamed q CHANNEL_ID ++
          [⟨CHANNEL_ID, Trigger.repeatingEvery ((86400 : ℚ) / (n : ℚ)) 10, CHANNEL_ID⟩],
          Reply.freqSet ((86400 : ℚ) / (n : ℚ))))
    ∧ (pyInt arg = none → setFrequency CHANNEL_ID arg q = (q, Reply.invalidArgument))
    ∧ (∀ n : Int, pyInt arg = some n → (n < 1 ∨ 24 < n) →
        setFrequency CHANNEL_ID arg q = (q, Reply.invalidArgument))
    ∧ (86400 : ℚ) / ((4 : Int) : ℚ) = 21600 := by
  refine ⟨?_, ?_, ?_, by norm_num⟩
  · intro n hn h1 h2
    rw [setFrequency, hn]
    simp [h1, h2]
  · intro hn
    rw [setFrequency, hn]
  · intro n hn hout
    rw [setFrequency, hn]
    simp only [if_neg (by omega : ¬(1 ≤ n ∧ n ≤ 24))]

theorem C4_witness :
    pyInt "4" = some 4
    ∧ setFrequency "-100123" "4" [] =
        ([⟨"-100123", Trigger.repeatingEvery 21600 10, "-100123"⟩], Reply.freqSet 21600)
    ∧ pyInt "x" = none
    ∧ setFrequency "-100123" "x" [] = ([], Reply.invalidArgument)
    ∧ pyInt "0" = some 0
    ∧ setFrequency "-100123" "0" [] = ([], Reply.invalidArgument)
    ∧ pyInt "25" = some 25
    ∧ setFrequency "-100123" "25" [] = ([], Reply.invalidArgument) := by
  refine ⟨by decide, ?_, by decide, ?_, by decide, ?_, by decide, ?_⟩
  · have h := (C4_set_freq_interval_and_validation "-100123" "4" []).1 4
      (by decide) (by decide) (by decide)
    rw [h]
    norm_num [removeJobsNamed]
  · exact (C4_set_freq_interval_and_validation "-100123" "x" []).2.1 (by decide)
  · exact (C4_set_freq_interval_and_validation "-100123" "0" []).2.2.1 0
      (by decide) (Or.inl (by decide))
  · exact (C4_set_freq_interval_and_validation "-100123" "25" []).2.2.1 25
      (by decide) (Or.inr (by decide))

/-- C5: for every invalid `/set_time` argument — a string that does not
parse as `HH:MM`, or a parsed time outside 00:00–23:59 — the command replies
with the validation error and the job queue is returned exactly as it was:
validation happens before the remove-old/insert-new step. -/
theorem C5_invalid_set_time_leaves_queue_unchanged (pytz : String → Option String)
    (TIMEZONE_STR CHANNEL_ID s : String) (rest : List String) (q : List Job)
    (hbad : pySplitInts s = none
      ∨ ∃ h m, pySplitInts s = some (h, m) ∧ validTimeOfDay h m = false) :
    set_daily_time pytz TIMEZONE_STR CHANNEL_ID (s :: rest) q = (q, Reply.invalidFormat) := by
  rcases hbad with hn | ⟨h, m, hsome, hv⟩
  · simp [set_daily_time, hn]
  · cases hptz : pytz TIMEZONE_STR <;> simp [set_daily_time, hsome, hv, hptz]

theorem C5_witness :
    (pySplitInts "abc" = none
      ∨ ∃ h m, pySplitInts "abc" = some (h, m) ∧ validTimeOfDay h m = false)
    ∧ (pySplitInts "25:61" = none
      ∨ ∃ h m, pySplitInts "25:61" = some (h, m) ∧ validTimeOfDay h m = false)
    ∧ set_daily_time pytzFixture "Asia/Kolkata" "-100123" ["abc"]
        [⟨"-100123", Trigger.dailyAt 7 0 "Asia/Kolkata", "-100123"⟩]
      = ([⟨"-100123", Trigger.dailyAt 7 0 "Asia/Kolkata", "-100123"⟩], Reply.invalidFormat)
    ∧ set_daily_time pytzFixture "Asia/Kolkata" "-100123" ["25:61"]
        [⟨"-100123", Trigger.dailyAt 7 0 "Asia/Kolkata", "-100123"⟩]
      = ([⟨"-100123", Trigger.dailyAt 7 0 "Asia/Kolkata", "-100123"⟩], Reply.invalidFormat) :=
  ⟨Or.inl (by decide), Or.inr ⟨25, 61, by decide, by decide⟩,
    C5_invalid_set_time_leaves_queue_unchanged pytzFixture "Asia/Kolkata" "-100123" "abc" []
      [⟨"-100123", Trigger.dailyAt 7 0 "Asia/Kolkata", "-100123"⟩] (Or.inl (by decide)),
    C5_invalid_set_time_leaves_queue_unchanged pytzFixture "Asia/Kolkata" "-100123" "25:61" []
      [⟨"-100123", Trigger.dailyAt 7 0 "Asia/Kolkata", "-100123"⟩]
      (Or.inr ⟨25, 61, by decide, by decide⟩)⟩

/-- C6: whatever the outcome of the content fetch and of the publish call, a
fire of the scheduled job returns normally — the failure is caught inside
the callback (`Except.ok` with the log written, never `Except.error`) — and
the job queue the scheduler holds is untouched by the fire, so the recurring
job stays armed for its next instant. -/
theorem C6_fire_failures_contained (q : List Job) (fetch : Except String (String × String))
    (send : Content → Except String Unit) :
    (fireDailyJob q fetch send).1 = q
    ∧ ∃ l, (fireDailyJob q fetch send).2 = Except.ok l := by
  refine ⟨rfl, ?_⟩
  show ∃ l, automated_post fetch send = Except.ok l
  cases fetch with
  | error e => exact ⟨_, rfl⟩
  | ok p =>
    obtain ⟨qt, au⟩ := p
    simp only [automated_post, get_quote_and_image]
    cases hs : send ⟨mkImageUrl qt, mkCaption qt au⟩ <;> simp [hs]

/-- C7: `/stop` when no job is registered under the destination's name is a
no-op that still reports success: the removal loop iterates over an empty
list and the queue comes back exactly as it was. -/
theorem C7_stop_with_no_job_is_noop (CHANNEL_ID : String) (q : List Job)
    (h : get_jobs_by_name q CHANNEL_ID = []) :
    stop_schedule CHANNEL_ID q = (q, Reply.scheduleStopped) := by
  unfold stop_schedule removeJobsNamed
  unfold get_jobs_by_name at h
  induction q with
  | nil => rfl
  | cons j t ih =>
    cases hj : (j.name == CHANNEL_ID) with
    | true => simp [List.filter_cons, hj] at h
    | false =>
      simp only [List.filter_cons, hj] at h
      have ht := ih h
      simp only [Prod.mk.injEq] at ht
      simp [List.filter_cons, hj, ht.1]

theorem C7_witness :
    get_jobs_by_name [] "-100123" = []
    ∧ stop_schedule "-100123" [] = ([], Reply.scheduleStopped) :=
  ⟨rfl, C7_stop_with_no_job_is_noop "-100123" [] rfl⟩

/-- C8: when the bot credential or the destination identifier is absent (or
empty) at startup, the process reports the critical error and refuses to
start: no handlers registered, no default job armed, no polling. -/
theorem C8_missing_config_refuses_start (pytz : String → Option String)
    (TOKEN CHANNEL_ID : Option String) (DEFAULT_TIME TIMEZONE_STR : String)
    (h : pyFalsy TOKEN = true ∨ pyFalsy CHANNEL_ID = true) :
    mainStartup pytz TOKEN CHANNEL_ID DEFAULT_TIME TIMEZONE_STR
      = ⟨true, [], [], false, false⟩ := by
  rcases h with h | h <;> simp [mainStartup, h]

theorem C8_witness :
    (pyFalsy none = true ∨ pyFalsy (some "-100123") = true)
    ∧ mainStartup pytzFixture none (some "-100123") "09:00" "Asia/Kolkata"
      = ⟨true, [], [], false, false⟩ :=
  ⟨Or.inl rfl,
    C8_missing_config_refuses_start pytzFixture none (some "-100123") "09:00" "Asia/Kolkata"
      (Or.inl rfl)⟩

/-- C9: a malformed default schedule time or an unknown configured timezone
is not fatal: the bare `except` around the default-schedule step turns it
into a warning, no job is armed, and the bot still registers all handlers
and starts polling. -/
theorem C9_bad_default_schedule_is_nonfatal (pytz : String → Option String)
    (TOKEN CHANNEL_ID : Option String) (DEFAULT_TIME TIMEZONE_STR : String)
    (htok : pyFalsy TOKEN = false) (hch : pyFalsy CHANNEL_ID = false)
    (hbad : pySplitInts DEFAULT_TIME = none ∨ pytz TIMEZONE_STR = none
      ∨ ∃ h m, pySplitInts DEFAULT_TIME = some (h, m) ∧ validTimeOfDay h m = false) :
    mainStartup pytz TOKEN CHANNEL_ID DEFAULT_TIME TIMEZONE_STR
      = ⟨false, handlersRegistered, [], true, true⟩ := by
  rcases hbad with h | h | ⟨hh, mm, hsome, hv⟩
  · simp [mainStartup, htok, hch, h]
  · cases hps : pySplitInts DEFAULT_TIME with
    | none => simp [mainStartup, htok, hch, hps]
    | some pr =>
      obtain ⟨a, b⟩ := pr
      simp [mainStartup, htok, hch, hps, h]
  · cases hpz : pytz TIMEZONE_STR <;> simp [mainStartup, htok, hch, hsome, hv, hpz]

theorem C9_witness :
    pyFalsy (some "tok") = false
    ∧ pyFalsy (some "-100123") = false
    ∧ pySplitInts "nonsense" = none
    ∧ mainStartup pytzFixture (some "tok") (some "-100123") "nonsense" "Asia/Kolkata"
      = ⟨false, handlersRegistered, [], true, true⟩ :=
  ⟨by decide, by decide, by decide,
    C9_bad_default_schedule_is_nonfatal pytzFixture (some "tok") (some "-100123")
      "nonsense" "Asia/Kolkata" (by decide) (by decide) (Or.inl (by decide))⟩

/-- C10: `/set_time` with no argument replies with the usage message and
returns before touching the job queue: the queue after the call is the very
queue that went in. -/
theorem C10_set_time_without_argument_is_usage_noop (pytz : String → Option String)
    (TIMEZONE_STR CHANNEL_ID : String) (q : List Job) :
    set_daily_time pytz TIMEZONE_STR CHANNEL_ID [] q = (q, Reply.usage) := rfl
